import Mathlib

/-!
Verification of the Sacred Geometry compositions and animation modules.

The Python `Composition` type (`Dict[str, List[Any]]`) is embedded as an
association list from string keys to lists of elements.  Python dict lookup
with default, `d.get(k, [])`, is `dget`; Python dict equality (same key set,
same values, order-insensitive) is `dictEquiv`.
-/

namespace SacredGeo

/-- A Python dict from category name to a list of elements, in insertion
order.  Keys are unique in any dict Python ever builds; lookup returns the
first match. -/
abbrev PyDict (α : Type) : Type := List (String × List α)

/-- Python `d[k]` as an option: the value stored under `k`, if present. -/
def lookupVal {α : Type} (d : PyDict α) (k : String) : Option (List α) :=
  match d with
  | [] => none
  | (k', v) :: rest => if k = k' then some v else lookupVal rest k

/-- Python `d.get(k, [])`: the value under `k`, or the empty list. -/
def dget {α : Type} (d : PyDict α) (k : String) : List α :=
  (lookupVal d k).getD []

/-- Python `==` on dicts: equal key sets and equal values, insertion order
ignored.  Two association lists with unique keys are `==` in Python exactly
when every lookup agrees. -/
def dictEquiv {α : Type} (d1 d2 : PyDict α) : Prop :=
  ∀ k : String, lookupVal d1 k = lookupVal d2 k

/-- The four element categories that `combine_patterns` produces. -/
def categoryKeys : List String := ["circles", "lines", "polygons", "3d_shapes"]

/-- The empty composition: a dict with no entries (`{}` in Python). -/
def emptyComposition {α : Type} : PyDict α := []

/-- The function `combine_patterns` (src/unnamed/part_002, lines 223-241): builds a new
dict whose four category entries concatenate the two inputs' entries,
reading each input with `.get(key, [])`. -/
def combine_patterns {α : Type} (pattern1_data pattern2_data : PyDict α) : PyDict α :=
  [("circles", dget pattern1_data "circles" ++ dget pattern2_data "circles"),
   ("lines", dget pattern1_data "lines" ++ dget pattern2_data "lines"),
   ("polygons", dget pattern1_data "polygons" ++ dget pattern2_data "polygons"),
   ("3d_shapes", dget pattern1_data "3d_shapes" ++ dget pattern2_data "3d_shapes")]

/-- The values of `np.linspace(s, e, n)`: for `n ≥ 2`, the `n` values `s + i*(e-s)/(n-1)`;
`np.linspace` special-cases `n = 1` to `[s]` with no division, and `n = 0`
gives the empty array. -/
def linspace (s e : ℚ) (n : ℕ) : List ℚ :=
  (List.range n).map
    (fun (i : ℕ) => if n ≤ 1 then s else s + (i : ℚ) * (e - s) / ((n : ℚ) - 1))

/-- Python `d[k] = v` on a dict: overwrite the value under an existing key in
place, else append the new pair. -/
def setParam (d : List (String × ℚ)) (k : String) (v : ℚ) : List (String × ℚ) :=
  match d with
  | [] => [(k, v)]
  | (k', v') :: rest => if k = k' then (k, v) :: rest else (k', v') :: setParam rest k v

/-- The driver `animate_pattern_evolution` (src/Promptreturned/animations.txt, lines
74-213): one frame per linspace value; each frame copies the static params,
merges the animated value under the animated name, runs the generator, then
the plot callback. -/
def animate_pattern_evolution {P F : Type} (pattern_generator : List (String × ℚ) → P)
    (static_params : List (String × ℚ)) (animated_param_name : String)
    (param_start_value param_end_value : ℚ) (plot_function : P → F)
    (frames : ℕ) : List F :=
  (linspace param_start_value param_end_value frames).map
    (fun v => plot_function (pattern_generator (setParam static_params animated_param_name v)))

/-- The Python exceptions the compositions module raises. -/
inductive PyErr where
  | valueError (msg : String)
deriving DecidableEq

/-- A 2D point. -/
abbrev Point : Type := ℝ × ℝ

noncomputable section

/-- The function `create_layered_flower_of_life` (src/unnamed/part_002, lines 22-82),
parameterized by the absent `create_flower_of_life` generator: after filling
`None` offsets/rotations with matched-length defaults, it raises
`ValueError` on any length mismatch, else concatenates the generator's
circles for each layer. -/
def create_layered_flower_of_life
    (create_flower_of_life : Point → ℝ → ℕ → List (List Point))
    (center : Point) (radii : List ℝ) (layers_per_radius : List ℕ)
    (offsets : Option (List Point)) (rotations : Option (List ℝ)) :
    Except PyErr (PyDict (List Point)) :=
  let num_fol_layers := radii.length
  let offs := offsets.getD (List.replicate num_fol_layers ((0 : ℝ), (0 : ℝ)))
  let rots := rotations.getD (List.replicate num_fol_layers (0 : ℝ))
  if ¬ (layers_per_radius.length = num_fol_layers ∧ offs.length = num_fol_layers ∧
        rots.length = num_fol_layers) then
    Except.error (PyErr.valueError
      "Mismatch in lengths of radii, layers_per_radius, offsets, or rotations.")
  else
    Except.ok
      [("circles",
        ((List.range num_fol_layers).map (fun (i : ℕ) =>
          create_flower_of_life
            (center.1 + (offs.getD i (0, 0)).1, center.2 + (offs.getD i (0, 0)).2)
            (radii.getD i 0) (layers_per_radius.getD i 0))).flatten),
       ("lines", []), ("polygons", [])]

/-- One mandala element spec dict.  The source reads each key with a
default (`sides` 3, `radius` 0.1, `offset_r` 0.0, `offset_angle` 0.0,
`rotation` 0.0), so a dict with missing keys behaves as this record with the
corresponding default field. -/
structure ElementSpec where
  type : String
  sides : ℕ := 3
  radius : ℝ := 0.1
  offset_r : ℝ := 0.0
  offset_angle : ℝ := 0.0
  rotation : ℝ := 0.0

/-- Modelled from the spec: `create_regular_polygon` from
`sacred_geometry.core.core` is absent from the snapshot.  Per the spec it
returns `sides` vertices on the circumscribed circle of the given radius,
counter-clockwise, starting at angle `rotation` and evenly spaced by
`2*pi/sides`. -/
def create_regular_polygon (center : Point) (radius : ℝ) (sides : ℕ)
    (rotation : ℝ) : List Point :=
  (List.range sides).map (fun (k : ℕ) =>
    (center.1 + radius * Real.cos (rotation + 2 * Real.pi * k / sides),
     center.2 + radius * Real.sin (rotation + 2 * Real.pi * k / sides)))

/-- Modelled from the spec: the sample count `create_circle` defaults to when
the mandala code calls it with only `center` and `radius`; the spec fixes no
default, only that it is some `num_points ≥ 3`. -/
def circleNumPoints : ℕ := 100

/-- Modelled from the spec: `create_circle` from
`sacred_geometry.core.core` is absent from the snapshot.  Per the spec it
returns an ordered sequence of `num_points` coordinates evenly spaced by
angle `2*pi/num_points`; it takes no rotation parameter, so sampling starts
at the fixed angle 0. -/
def create_circle (center : Point) (radius : ℝ) : List Point :=
  (List.range circleNumPoints).map (fun (k : ℕ) =>
    (center.1 + radius * Real.cos (2 * Real.pi * k / circleNumPoints),
     center.2 + radius * Real.sin (2 * Real.pi * k / circleNumPoints)))

/-- Rotation of a point about a center by an angle, the reference transform
the symmetry statements quantify over. -/
def rotatePoint (c : Point) (a : ℝ) (p : Point) : Point :=
  (c.1 + (p.1 - c.1) * Real.cos a - (p.2 - c.2) * Real.sin a,
   c.2 + (p.1 - c.1) * Real.sin a + (p.2 - c.2) * Real.cos a)

/-- The element's own center for a segment at angle `segAngle`
(src/unnamed/part_002, lines 136-140): polar offset `offset_r` from the
global center at angle `segAngle + offset_angle`. -/
def mandalaElementCenter (center : Point) (segAngle : ℝ) (e : ElementSpec) : Point :=
  (center.1 + e.offset_r * Real.cos (segAngle + e.offset_angle),
   center.2 + e.offset_r * Real.sin (segAngle + e.offset_angle))

/-- The polygons one segment contributes, in spec order (src/unnamed/part_002,
lines 142-151): a spec typed `polygon` yields one polygon whose rotation is
the spec's rotation plus the segment angle; any other type contributes
nothing here. -/
def segmentPolygons (center : Point) (specs : List ElementSpec) (segAngle : ℝ) :
    List (List Point) :=
  specs.filterMap (fun e =>
    if e.type = "polygon" then
      some (create_regular_polygon (mandalaElementCenter center segAngle e)
        e.radius e.sides (e.rotation + segAngle))
    else none)

/-- The circles one segment contributes, in spec order (src/unnamed/part_002,
lines 152-157): a spec typed `circle` yields one circle sampled by
`create_circle` at the element center; the call passes no rotation.  Specs
of any unrecognized type are skipped by the `if/elif` chain with no `else`. -/
def segmentCircles (center : Point) (specs : List ElementSpec) (segAngle : ℝ) :
    List (List Point) :=
  specs.filterMap (fun e =>
    if e.type = "circle" then
      some (create_circle (mandalaElementCenter center segAngle e) e.radius)
    else none)

/-- The (center, radius) data of the circles one segment contributes;
`segmentCircles` is exactly `create_circle` mapped over this list. -/
def segmentCircleData (center : Point) (specs : List ElementSpec) (segAngle : ℝ) :
    List (Point × ℝ) :=
  specs.filterMap (fun e =>
    if e.type = "circle" then
      some (mandalaElementCenter center segAngle e, e.radius)
    else none)

/-- The default `segment_elements` the source substitutes for `None`
(src/unnamed/part_002, lines 117-123). -/
def defaultSegmentElements (base_radius : ℝ) : List ElementSpec :=
  [⟨"polygon", 6, 0.5 * base_radius / 3, 1.0 * base_radius / 3, 0, Real.pi / 6⟩,
   ⟨"polygon", 3, 0.3 * base_radius / 3, 1.8 * base_radius / 3, Real.pi / 24, 0⟩,
   ⟨"circle", 3, 0.1 * base_radius / 3, 2.5 * base_radius / 3, 0, 0⟩]

/-- The function `create_mandala_from_polygons` (src/unnamed/part_002, lines 85-160): for
each of `num_segments` segments at angle `i * 2*pi/num_segments`, generate
every spec's element; polygons and circles accumulate into separate lists in
loop order.  The function performs no input validation and cannot raise. -/
def create_mandala_from_polygons (center : Point) (num_segments : ℕ)
    (segment_elements : Option (List ElementSpec)) (base_radius : ℝ) :
    PyDict (List Point) :=
  let specs := segment_elements.getD (defaultSegmentElements base_radius)
  let step := 2 * Real.pi / num_segments
  [("polygons",
    ((List.range num_segments).map (fun (i : ℕ) =>
      segmentPolygons center specs (i * step))).flatten),
   ("circles",
    ((List.range num_segments).map (fun (i : ℕ) =>
      segmentCircles center specs (i * step))).flatten),
   ("lines", [])]

/-- The circle list a two-segment mandala with one circle spec
(radius 1, radial offset 1) generates. -/
def exampleMandalaCircles : List (List Point) :=
  dget (create_mandala_from_polygons ((0 : ℝ), (0 : ℝ)) 2
    (some [⟨"circle", 3, 1, 1, 0, 0⟩]) 1) "circles"

/-- Modelled from the spec: a Platonic solid record produced by the absent
`sacred_geometry.shapes.shapes` generators.  Only how many solids the
constellation produces, where it places them, and its error behavior are
in scope here, so a solid is recorded by its type tag, the
center it was requested at, and its radius; the vertex/face/edge math of the
absent module is not modelled. -/
structure PSolid where
  name : String
  center : ℝ × ℝ × ℝ
  radius : ℝ

/-- Modelled from the spec: the name-based lookup of `create_<solid_type>`
in the absent shapes module, as the closed registry the spec prescribes —
the five Platonic solids resolve and every other name fails. -/
def shapesRegistry : String → Option ((ℝ × ℝ × ℝ) → ℝ → PSolid) := fun s =>
  if s = "tetrahedron" ∨ s = "cube" ∨ s = "octahedron" ∨ s = "dodecahedron" ∨
      s = "icosahedron" then
    some (fun c r => ⟨s, c, r⟩)
  else none

/-- The function `create_platonic_solid_constellation` (src/unnamed/part_002, lines
163-220), parameterized by the solid-generator lookup: an unresolvable
`solid_type` raises `ValueError` before any solid is generated; otherwise
each of `num_solids` solids is generated at an evenly spaced angle on the
arrangement circle in the `z = 0` plane.  `solid_rotation_offset` is
accepted but never used (the source only mentions it in comments). -/
def create_platonic_solid_constellation
    (registry : String → Option ((ℝ × ℝ × ℝ) → ℝ → PSolid))
    (solid_type : String) (num_solids : ℕ)
    (arrangement_radius solid_radius solid_rotation_offset : ℝ) :
    Except PyErr (PyDict PSolid) :=
  match registry solid_type with
  | none => Except.error (PyErr.valueError
      ("Unsupported or unknown solid type: " ++ solid_type))
  | some create_solid_func =>
    Except.ok
      [("3d_shapes",
        (List.range num_solids).map (fun (i : ℕ) =>
          create_solid_func
            (arrangement_radius * Real.cos (i * (2 * Real.pi / num_solids)),
             arrangement_radius * Real.sin (i * (2 * Real.pi / num_solids)),
             0)
            solid_radius)),
       ("circles", []), ("lines", []), ("polygons", [])]

end

theorem lookupVal_nil {α : Type} (k : String) : lookupVal ([] : PyDict α) k = none := rfl

theorem lookupVal_cons {α : Type} (k k' : String) (v : List α) (rest : PyDict α) :
    lookupVal ((k', v) :: rest) k = if k = k' then some v else lookupVal rest k := rfl

theorem dget_combine_circles {α : Type} (A B : PyDict α) :
    dget (combine_patterns A B) "circles" = dget A "circles" ++ dget B "circles" := rfl

theorem dget_combine_lines {α : Type} (A B : PyDict α) :
    dget (combine_patterns A B) "lines" = dget A "lines" ++ dget B "lines" := rfl

theorem dget_combine_polygons {α : Type} (A B : PyDict α) :
    dget (combine_patterns A B) "polygons" = dget A "polygons" ++ dget B "polygons" := rfl

theorem dget_combine_shapes {α : Type} (A B : PyDict α) :
    dget (combine_patterns A B) "3d_shapes" = dget A "3d_shapes" ++ dget B "3d_shapes" := rfl

/-- C2: `combine_patterns` is associative.  The two sides are even equal as
ordered association lists, which is stronger than Python dict equality. -/
theorem combine_patterns_assoc {α : Type} (A B C : PyDict α) :
    combine_patterns (combine_patterns A B) C = combine_patterns A (combine_patterns B C) := by
  simp only [combine_patterns, dget, lookupVal, List.append_assoc, if_pos, if_neg,
    String.reduceEq, reduceIte, Option.getD_some]

theorem lookupVal_eq_none_iff {α : Type} (d : PyDict α) (k : String) :
    lookupVal d k = none ↔ k ∉ d.map Prod.fst := by
  induction d with
  | nil => simp [lookupVal]
  | cons hd tl ih =>
    obtain ⟨k', v⟩ := hd
    by_cases h : k = k'
    · subst h; simp [lookupVal]
    · simp [lookupVal, h, ih]

theorem lookupVal_eq_some_dget {α : Type} (d : PyDict α) (k : String)
    (h : lookupVal d k ≠ none) : lookupVal d k = some (dget d k) := by
  cases hv : lookupVal d k with
  | none => exact absurd hv h
  | some v => simp [dget, hv]

/-- The single lookup law for `combine_patterns`: the result holds exactly the
four category keys, each mapped to the concatenation of the two inputs'
defaulted lookups. -/
theorem lookupVal_combine {α : Type} (A B : PyDict α) (k : String) :
    lookupVal (combine_patterns A B) k =
      if k ∈ categoryKeys then some (dget A k ++ dget B k) else none := by
  by_cases h1 : k = "circles"
  · subst h1; simp [combine_patterns, lookupVal, categoryKeys]
  by_cases h2 : k = "lines"
  · subst h2; simp [combine_patterns, lookupVal, categoryKeys]
  by_cases h3 : k = "polygons"
  · subst h3; simp [combine_patterns, lookupVal, categoryKeys]
  by_cases h4 : k = "3d_shapes"
  · subst h4; simp [combine_patterns, lookupVal, categoryKeys]
  simp [combine_patterns, lookupVal, categoryKeys, h1, h2, h3, h4]

/-- C9: the dict returned by `combine_patterns` has exactly the key set
`{circles, lines, polygons, 3d_shapes}`; a key absent from an input is read
as the empty list, and any other key of the inputs is dropped. -/
theorem combine_patterns_key_set {α : Type} (A B : PyDict α) :
    (combine_patterns A B).map Prod.fst = categoryKeys ∧
      ∀ k : String, lookupVal (combine_patterns A B) k =
        if k ∈ categoryKeys then some (dget A k ++ dget B k) else none :=
  ⟨rfl, fun k => lookupVal_combine A B k⟩

/-- C3 counterexample: with `A = {'circles': [], 'lines': [], 'polygons': []}`
(exactly the dict `create_layered_flower_of_life` returns for empty inputs),
`combine_patterns(A, empty)` gains a `'3d_shapes'` key that `A` lacks, so the
two dicts are not equal in Python. -/
theorem combine_patterns_identity_fails :
    lookupVal (combine_patterns [("circles", []), ("lines", []), ("polygons", [])]
        (emptyComposition : PyDict Nat)) "3d_shapes" = some [] ∧
      lookupVal ([("circles", []), ("lines", []), ("polygons", [])] : PyDict Nat)
        "3d_shapes" = none ∧
      ¬ dictEquiv (combine_patterns [("circles", []), ("lines", []), ("polygons", [])]
          (emptyComposition : PyDict Nat))
        [("circles", []), ("lines", []), ("polygons", [])] := by
  refine ⟨rfl, rfl, fun h => ?_⟩
  have h3 := h "3d_shapes"
  simp [combine_patterns, lookupVal, dget, emptyComposition] at h3

/-- C3 amended: the empty composition is an identity for `combine_patterns`
up to Python dict equality exactly on the compositions whose key set is the
four categories; for those, combining with the empty dict on either side
gives back an equal dict. -/
theorem combine_patterns_identity {α : Type} (A : PyDict α)
    (hsub : ∀ k ∈ A.map Prod.fst, k ∈ categoryKeys)
    (hsup : ∀ k ∈ categoryKeys, k ∈ A.map Prod.fst) :
    dictEquiv (combine_patterns A emptyComposition) A ∧
      dictEquiv (combine_patterns emptyComposition A) A := by
  have key : ∀ k : String, (if k ∈ categoryKeys then some (dget A k) else none)
      = lookupVal A k := by
    intro k
    by_cases hk : k ∈ categoryKeys
    · rw [if_pos hk]
      have hmem : k ∈ A.map Prod.fst := hsup k hk
      have hne : lookupVal A k ≠ none := by
        rw [Ne, lookupVal_eq_none_iff]; exact fun h => h hmem
      rw [lookupVal_eq_some_dget A k hne]
    · rw [if_neg hk]
      have : k ∉ A.map Prod.fst := fun h => hk (hsub k h)
      exact ((lookupVal_eq_none_iff A k).mpr this).symm
  constructor
  · intro k
    rw [lookupVal_combine, ← key k]
    by_cases hk : k ∈ categoryKeys <;>
      simp [hk, dget, emptyComposition, lookupVal]
  · intro k
    rw [lookupVal_combine, ← key k]
    by_cases hk : k ∈ categoryKeys <;>
      simp [hk, dget, emptyComposition, lookupVal]

/-- Witness for the amended C3 at a concrete four-category dict. -/
theorem combine_patterns_identity_witness :
    dictEquiv (combine_patterns [("circles", [1]), ("lines", []),
        ("polygons", [2, 3]), ("3d_shapes", [])] (emptyComposition : PyDict Nat))
      [("circles", [1]), ("lines", []), ("polygons", [2, 3]), ("3d_shapes", [])] ∧
      dictEquiv (combine_patterns (emptyComposition : PyDict Nat)
          [("circles", [1]), ("lines", []), ("polygons", [2, 3]), ("3d_shapes", [])])
        [("circles", [1]), ("lines", []), ("polygons", [2, 3]), ("3d_shapes", [])] :=
  combine_patterns_identity
    [("circles", [1]), ("lines", []), ("polygons", [2, 3]), ("3d_shapes", [])]
    (by decide) (by decide)

/-!
## Animation driver (src/Promptreturned/animations.txt)

`animate_pattern_evolution` computes `np.linspace(start, end, frames)`, and
for each value copies the static parameter dict, stores the value under the
animated name, invokes the generator, then the plot callback.  Parameter
values are embedded as exact rationals; the per-frame `update` loop driven by
`FuncAnimation(frames=frames)` is embedded as a map over the value list.
-/

theorem linspace_length (s e : ℚ) (n : ℕ) : (linspace s e n).length = n := by
  simp only [linspace, List.length_map, List.length_range]

theorem linspace_getElem? (s e : ℚ) (n i : ℕ) (h : i < n) :
    (linspace s e n)[i]? =
      some (if n ≤ 1 then s else s + i * (e - s) / ((n : ℚ) - 1)) := by
  rw [linspace, List.getElem?_map, List.getElem?_range h]
  rfl

/-- C5: with `frames = N ≥ 1` the driver renders exactly `N` frames, the
`i`-th built from the `i`-th of `N` evenly spaced parameter values running
from start to end inclusive; when start = end every value equals the start
and the spacing formula's division is never reached. -/
theorem animate_pattern_evolution_spec {P F : Type} (gen : List (String × ℚ) → P)
    (static : List (String × ℚ)) (name : String) (s e : ℚ) (plot : P → F)
    (N : ℕ) (hN : 1 ≤ N) :
    (animate_pattern_evolution gen static name s e plot N).length = N ∧
      (∀ i : ℕ, i < N →
        (animate_pattern_evolution gen static name s e plot N)[i]? =
          some (plot (gen (setParam static name ((linspace s e N).getD i 0))))) ∧
      (linspace s e N)[0]? = some s ∧
      (2 ≤ N → (linspace s e N)[N - 1]? = some e) ∧
      (∀ i : ℕ, i + 1 < N →
        (linspace s e N).getD (i + 1) 0 - (linspace s e N).getD i 0 =
          (e - s) / ((N : ℚ) - 1)) ∧
      (s = e → ∀ v ∈ linspace s e N, v = s) := by
  refine ⟨?_, ?_, ?_, ?_, ?_, ?_⟩
  · simp only [animate_pattern_evolution, List.length_map, linspace_length]
  · intro i hi
    rw [animate_pattern_evolution, List.getElem?_map, List.getD_eq_getElem?_getD,
      linspace_getElem? s e N i hi]
    rfl
  · rw [linspace_getElem? s e N 0 hN]
    by_cases h1 : N ≤ 1 <;> simp [h1]
  · intro h2
    have hlt : N - 1 < N := Nat.sub_lt (Nat.lt_of_lt_of_le Nat.zero_lt_one hN) Nat.zero_lt_one
    rw [linspace_getElem? s e N (N - 1) hlt]
    have hn1 : ¬ N ≤ 1 := by omega
    have hcast : ((N - 1 : ℕ) : ℚ) = (N : ℚ) - 1 := by
      push_cast [Nat.cast_sub hN]; ring
    have hne : (N : ℚ) - 1 ≠ 0 := by
      have h2q : (2 : ℚ) ≤ (N : ℚ) := by exact_mod_cast h2
      intro hz; nlinarith
    simp only [if_neg hn1, hcast]
    congr 1
    field_simp
  · intro i hi
    have hi1 : i < N := Nat.lt_of_succ_lt hi
    have hn1 : ¬ N ≤ 1 := by omega
    rw [List.getD_eq_getElem?_getD, List.getD_eq_getElem?_getD,
      linspace_getElem? s e N (i + 1) hi, linspace_getElem? s e N i hi1]
    simp only [if_neg hn1, Option.getD_some]
    push_cast
    ring
  · intro hse v hv
    simp only [linspace, List.mem_map, List.mem_range] at hv
    obtain ⟨i, _, rfl⟩ := hv
    subst hse
    by_cases h1 : N ≤ 1 <;> simp [h1]

/-- Witness for C5 at three frames from 0 to 1. -/
theorem animate_pattern_evolution_spec_witness :
    (1 : ℕ) ≤ 3 ∧
      (animate_pattern_evolution (fun d => d) [("radius", 1)] "layers" 0 1
        (fun p => p) 3).length = 3 :=
  ⟨by decide,
    (animate_pattern_evolution_spec (fun d => d) [("radius", 1)] "layers" 0 1
      (fun p => p) 3 (by decide)).1⟩

/-!
## Geometry layer

Coordinates are exact reals.  The primitive generators
(`create_circle`, `create_regular_polygon`, `create_flower_of_life` from
`sacred_geometry.core.core`) are not part of this repository snapshot; where
a definition is needed it is modelled from the spec and marked as such, and
where only its outputs flow through composition code it is taken as an
abstract function parameter.
-/

/-- C4: a length mismatch among the parameter lists makes
`create_layered_flower_of_life` fail with the mismatch `ValueError` (the
spec's `ConfigurationError`), and the result does not depend on the
generator at all, so no Flower of Life generation occurs and no partial
result is produced. -/
theorem create_layered_flower_of_life_mismatch
    (center : Point) (radii : List ℝ) (layers_per_radius : List ℕ)
    (offsets : Option (List Point)) (rotations : Option (List ℝ))
    (h : ¬ (layers_per_radius.length = radii.length ∧
        (offsets.getD (List.replicate radii.length ((0 : ℝ), (0 : ℝ)))).length = radii.length ∧
        (rotations.getD (List.replicate radii.length (0 : ℝ))).length = radii.length)) :
    ∀ create_flower_of_life : Point → ℝ → ℕ → List (List Point),
      create_layered_flower_of_life create_flower_of_life center radii
          layers_per_radius offsets rotations =
        Except.error (PyErr.valueError
          "Mismatch in lengths of radii, layers_per_radius, offsets, or rotations.") := by
  intro g
  simp only [create_layered_flower_of_life]
  rw [if_pos h]

/-- Witness for C4: one radius but no layer counts. -/
theorem create_layered_flower_of_life_mismatch_witness :
    (¬ ((List.length ([] : List ℕ)) = List.length [(1 : ℝ)] ∧
        ((none : Option (List Point)).getD
          (List.replicate (List.length [(1 : ℝ)]) ((0 : ℝ), (0 : ℝ)))).length =
          List.length [(1 : ℝ)] ∧
        ((none : Option (List ℝ)).getD
          (List.replicate (List.length [(1 : ℝ)]) (0 : ℝ))).length =
          List.length [(1 : ℝ)])) ∧
      create_layered_flower_of_life (fun _ _ _ => []) ((0 : ℝ), (0 : ℝ)) [(1 : ℝ)] []
          none none =
        Except.error (PyErr.valueError
          "Mismatch in lengths of radii, layers_per_radius, offsets, or rotations.") :=
  ⟨by simp, create_layered_flower_of_life_mismatch ((0 : ℝ), (0 : ℝ)) [(1 : ℝ)] [] none none
    (by simp) (fun _ _ _ => [])⟩

theorem length_segmentPolygons (center : Point) (specs : List ElementSpec)
    (segAngle : ℝ) :
    (segmentPolygons center specs segAngle).length =
      specs.countP (fun e => e.type == "polygon") := by
  induction specs with
  | nil => rfl
  | cons hd tl ih =>
    by_cases h : hd.type = "polygon" <;>
      simp [segmentPolygons, List.filterMap_cons, h, List.countP_cons, ih,
        segmentPolygons] <;> simp [segmentPolygons] at ih <;> omega

theorem length_segmentCircles (center : Point) (specs : List ElementSpec)
    (segAngle : ℝ) :
    (segmentCircles center specs segAngle).length =
      specs.countP (fun e => e.type == "circle") := by
  induction specs with
  | nil => rfl
  | cons hd tl ih =>
    by_cases h : hd.type = "circle" <;>
      simp [segmentCircles, List.filterMap_cons, h, List.countP_cons, ih,
        segmentCircles] <;> simp [segmentCircles] at ih <;> omega

/-- C7 counterexample: a mandala call whose single element spec has the
unrecognized type `line` returns normally with no polygons and no circles —
the spec is silently skipped by the `if/elif` chain, no error is raised, and
the segment gains no element for it. -/
theorem mandala_unknown_type_skipped :
    create_mandala_from_polygons ((0 : ℝ), (0 : ℝ)) 1
        (some [⟨"line", 3, 1, 1, 0, 0⟩]) 3 =
      [("polygons", []), ("circles", []), ("lines", [])] := by
  simp [create_mandala_from_polygons, segmentPolygons, segmentCircles,
    List.filterMap_cons]

/-- C7 amended: each spec typed `polygon` or `circle` contributes exactly one
element to every one of the `num_segments` segments; a spec of any other
type is silently skipped, contributing nothing, and the function returns
normally rather than raising. -/
theorem mandala_element_counts (center : Point) (specs : List ElementSpec)
    (num_segments : ℕ) (base_radius : ℝ) :
    (dget (create_mandala_from_polygons center num_segments (some specs) base_radius)
        "polygons").length =
      num_segments * specs.countP (fun e => e.type == "polygon") ∧
    (dget (create_mandala_from_polygons center num_segments (some specs) base_radius)
        "circles").length =
      num_segments * specs.countP (fun e => e.type == "circle") := by
  constructor
  · simp only [create_mandala_from_polygons, Option.getD_some, dget, lookupVal]
    simp only [String.reduceEq, reduceIte, Option.getD_some, List.length_flatten,
      List.map_map]
    have hfun : ∀ i ∈ List.range num_segments,
        (List.length ∘ fun (j : ℕ) =>
          segmentPolygons center specs (j * (2 * Real.pi / num_segments))) i =
        specs.countP (fun e => e.type == "polygon") := by
      intro i _
      simp only [Function.comp_apply, length_segmentPolygons]
    rw [List.map_congr_left hfun, List.map_const', List.length_range,
      List.sum_replicate, smul_eq_mul]
  · simp only [create_mandala_from_polygons, Option.getD_some, dget, lookupVal]
    simp only [String.reduceEq, reduceIte, Option.getD_some, List.length_flatten,
      List.map_map]
    have hfun : ∀ i ∈ List.range num_segments,
        (List.length ∘ fun (j : ℕ) =>
          segmentCircles center specs (j * (2 * Real.pi / num_segments))) i =
        specs.countP (fun e => e.type == "circle") := by
      intro i _
      simp only [Function.comp_apply, length_segmentCircles]
    rw [List.map_congr_left hfun, List.map_const', List.length_range,
      List.sum_replicate, smul_eq_mul]

/-- C8 counterexample: a mandala call with `base_radius = -3` and explicit
segment elements raises nothing and generates a circle — the non-positive
size parameter is not validated (with explicit elements `base_radius` is not
even read). -/
theorem mandala_negative_base_radius_accepted :
    (dget (create_mandala_from_polygons ((0 : ℝ), (0 : ℝ)) 1
        (some [⟨"circle", 3, 1, 0, 0, 0⟩]) (-3)) "circles").length = 1 := by
  rfl

/-- C8 amended: the composition entry points perform no positivity
validation.  `create_mandala_from_polygons` ignores `base_radius` entirely
when `segment_elements` is supplied, and `create_layered_flower_of_life`
(given matching list lengths) passes every radius — non-positive ones
included — straight to the Flower of Life generator and returns its results;
any rejection of a non-positive radius can only come from the primitive
generators during generation, not from validation in these entry points. -/
theorem composition_no_radius_validation
    (center : Point) (num_segments : ℕ) (specs : List ElementSpec) (b1 b2 : ℝ)
    (g : Point → ℝ → ℕ → List (List Point)) (c2 : Point) (radii : List ℝ)
    (layers_per_radius : List ℕ)
    (hlen : layers_per_radius.length = radii.length) :
    create_mandala_from_polygons center num_segments (some specs) b1 =
      create_mandala_from_polygons center num_segments (some specs) b2 ∧
    create_layered_flower_of_life g c2 radii layers_per_radius none none =
      Except.ok
        [("circles",
          ((List.range radii.length).map (fun (i : ℕ) =>
            g (c2.1 + ((List.replicate radii.length ((0 : ℝ), (0 : ℝ))).getD i
                  ((0 : ℝ), (0 : ℝ))).1,
               c2.2 + ((List.replicate radii.length ((0 : ℝ), (0 : ℝ))).getD i
                  ((0 : ℝ), (0 : ℝ))).2)
              (radii.getD i 0) (layers_per_radius.getD i 0))).flatten),
         ("lines", []), ("polygons", [])] := by
  refine ⟨rfl, ?_⟩
  have hC : layers_per_radius.length = radii.length ∧
      ((none : Option (List Point)).getD
        (List.replicate radii.length ((0 : ℝ), (0 : ℝ)))).length = radii.length ∧
      ((none : Option (List ℝ)).getD
        (List.replicate radii.length (0 : ℝ))).length = radii.length :=
    ⟨hlen, by simp, by simp⟩
  simp only [create_layered_flower_of_life]
  rw [if_neg (not_not_intro hC)]
  rfl

/-- Witness for the amended C8 with a negative radius and a negative
`base_radius`. -/
theorem composition_no_radius_validation_witness :
    List.length [(2 : ℕ)] = List.length [(-1 : ℝ)] ∧
    create_mandala_from_polygons ((0 : ℝ), (0 : ℝ)) 4
        (some [⟨"circle", 3, 1, 0, 0, 0⟩]) (-3) =
      create_mandala_from_polygons ((0 : ℝ), (0 : ℝ)) 4
        (some [⟨"circle", 3, 1, 0, 0, 0⟩]) 5 ∧
    create_layered_flower_of_life (fun _ _ _ => [[((0 : ℝ), (0 : ℝ))]])
        ((0 : ℝ), (0 : ℝ)) [(-1 : ℝ)] [(2 : ℕ)] none none =
      Except.ok
        [("circles",
          ((List.range (List.length [(-1 : ℝ)])).map (fun (i : ℕ) =>
            (fun (_ : Point) (_ : ℝ) (_ : ℕ) => [[((0 : ℝ), (0 : ℝ))]])
              ((0 : ℝ) + ((List.replicate (List.length [(-1 : ℝ)]) ((0 : ℝ), (0 : ℝ))).getD i
                  ((0 : ℝ), (0 : ℝ))).1,
               (0 : ℝ) + ((List.replicate (List.length [(-1 : ℝ)]) ((0 : ℝ), (0 : ℝ))).getD i
                  ((0 : ℝ), (0 : ℝ))).2)
              ([(-1 : ℝ)].getD i 0) ([(2 : ℕ)].getD i 0))).flatten),
         ("lines", []), ("polygons", [])] := by
  refine ⟨rfl, ?_, ?_⟩
  · exact (composition_no_radius_validation ((0 : ℝ), (0 : ℝ)) 4
      [⟨"circle", 3, 1, 0, 0, 0⟩] (-3) 5 (fun _ _ _ => [[((0 : ℝ), (0 : ℝ))]])
      ((0 : ℝ), (0 : ℝ)) [(-1 : ℝ)] [(2 : ℕ)] rfl).1
  · exact (composition_no_radius_validation ((0 : ℝ), (0 : ℝ)) 4
      [⟨"circle", 3, 1, 0, 0, 0⟩] (-3) 5 (fun _ _ _ => [[((0 : ℝ), (0 : ℝ))]])
      ((0 : ℝ), (0 : ℝ)) [(-1 : ℝ)] [(2 : ℕ)] rfl).2

theorem mandalaElementCenter_rotate (c : Point) (e : ElementSpec) (t a : ℝ) :
    mandalaElementCenter c (t + a) e = rotatePoint c a (mandalaElementCenter c t e) := by
  simp only [mandalaElementCenter, rotatePoint, Real.cos_add, Real.sin_add, Prod.mk.injEq]
  constructor <;> ring

theorem mandalaElementCenter_two_pi (c : Point) (e : ElementSpec) (t : ℝ) :
    mandalaElementCenter c (t + 2 * Real.pi) e = mandalaElementCenter c t e := by
  simp only [mandalaElementCenter, Real.cos_add, Real.sin_add, Real.cos_two_pi,
    Real.sin_two_pi, Prod.mk.injEq]
  constructor <;> ring

theorem create_regular_polygon_segment_rotate (c : Point) (e : ElementSpec) (t a : ℝ) :
    create_regular_polygon (mandalaElementCenter c (t + a) e) e.radius e.sides
        (e.rotation + (t + a)) =
      (create_regular_polygon (mandalaElementCenter c t e) e.radius e.sides
        (e.rotation + t)).map (rotatePoint c a) := by
  unfold create_regular_polygon mandalaElementCenter
  rw [List.map_map]
  apply List.map_congr_left
  intro k _
  simp only [Function.comp_apply, rotatePoint, Real.cos_add, Real.sin_add, Prod.mk.injEq]
  constructor <;> ring

theorem create_regular_polygon_segment_two_pi (c : Point) (e : ElementSpec) (t : ℝ) :
    create_regular_polygon (mandalaElementCenter c (t + 2 * Real.pi) e) e.radius e.sides
        (e.rotation + (t + 2 * Real.pi)) =
      create_regular_polygon (mandalaElementCenter c t e) e.radius e.sides
        (e.rotation + t) := by
  unfold create_regular_polygon mandalaElementCenter
  apply List.map_congr_left
  intro k _
  simp only [Real.cos_add, Real.sin_add, Real.cos_two_pi, Real.sin_two_pi, Prod.mk.injEq]
  constructor <;> ring

theorem segmentPolygons_rotate (c : Point) (specs : List ElementSpec) (t a : ℝ) :
    segmentPolygons c specs (t + a) =
      (segmentPolygons c specs t).map (List.map (rotatePoint c a)) := by
  unfold segmentPolygons
  rw [List.map_filterMap]
  apply List.filterMap_congr
  intro e _
  by_cases h : e.type = "polygon"
  · simp [h, create_regular_polygon_segment_rotate]
  · simp [h]

theorem segmentPolygons_two_pi (c : Point) (specs : List ElementSpec) (t : ℝ) :
    segmentPolygons c specs (t + 2 * Real.pi) = segmentPolygons c specs t := by
  unfold segmentPolygons
  apply List.filterMap_congr
  intro e _
  by_cases h : e.type = "polygon"
  · simp [h, create_regular_polygon_segment_two_pi]
  · simp [h]

theorem segmentCircleData_rotate (c : Point) (specs : List ElementSpec) (t a : ℝ) :
    segmentCircleData c specs (t + a) =
      (segmentCircleData c specs t).map (fun pr => (rotatePoint c a pr.1, pr.2)) := by
  unfold segmentCircleData
  rw [List.map_filterMap]
  apply List.filterMap_congr
  intro e _
  by_cases h : e.type = "circle"
  · simp [h, mandalaElementCenter_rotate]
  · simp [h]

theorem segmentCircleData_two_pi (c : Point) (specs : List ElementSpec) (t : ℝ) :
    segmentCircleData c specs (t + 2 * Real.pi) = segmentCircleData c specs t := by
  unfold segmentCircleData
  apply List.filterMap_congr
  intro e _
  by_cases h : e.type = "circle"
  · simp [h, mandalaElementCenter_two_pi]
  · simp [h]

theorem segmentCircles_eq_data (c : Point) (specs : List ElementSpec) (t : ℝ) :
    segmentCircles c specs t =
      (segmentCircleData c specs t).map (fun pr => create_circle pr.1 pr.2) := by
  unfold segmentCircles segmentCircleData
  rw [List.map_filterMap]
  apply List.filterMap_congr
  intro e _
  by_cases h : e.type = "circle" <;> simp [h]

/-- C1 amended: the mandala's polygon and circle lists decompose into
`num_segments` per-slot blocks; rotating slot `i`'s polygons by
`2*pi/num_segments` about the global center reproduces slot
`(i+1) % num_segments`'s polygons exactly, and the same rotation carries
slot `i`'s circle centers (with unchanged radii) to slot `(i+1)`'s circle
centers.  The circles' sampled point arrays themselves are generated at
fixed angles independent of the slot, so the full pointwise claim holds for
polygons and for circles-as-center/radius data, not for circle sample
arrays (see the counterexample). -/
theorem mandala_rotational_symmetry (center : Point) (specs : List ElementSpec)
    (num_segments : ℕ) (base_radius : ℝ) (hn : 1 ≤ num_segments) (i : ℕ)
    (hi : i < num_segments) :
    dget (create_mandala_from_polygons center num_segments (some specs) base_radius)
        "polygons" =
      ((List.range num_segments).map (fun (j : ℕ) =>
        segmentPolygons center specs (j * (2 * Real.pi / (num_segments : ℝ))))).flatten ∧
    dget (create_mandala_from_polygons center num_segments (some specs) base_radius)
        "circles" =
      ((List.range num_segments).map (fun (j : ℕ) =>
        segmentCircles center specs (j * (2 * Real.pi / (num_segments : ℝ))))).flatten ∧
    segmentPolygons center specs
        ((((i + 1) % num_segments : ℕ) : ℝ) * (2 * Real.pi / (num_segments : ℝ))) =
      (segmentPolygons center specs ((i : ℝ) * (2 * Real.pi / (num_segments : ℝ)))).map
        (List.map (rotatePoint center (2 * Real.pi / (num_segments : ℝ)))) ∧
    segmentCircleData center specs
        ((((i + 1) % num_segments : ℕ) : ℝ) * (2 * Real.pi / (num_segments : ℝ))) =
      (segmentCircleData center specs ((i : ℝ) * (2 * Real.pi / (num_segments : ℝ)))).map
        (fun pr => (rotatePoint center (2 * Real.pi / (num_segments : ℝ)) pr.1, pr.2)) ∧
    segmentCircles center specs ((i : ℝ) * (2 * Real.pi / (num_segments : ℝ))) =
      (segmentCircleData center specs ((i : ℝ) * (2 * Real.pi / (num_segments : ℝ)))).map
        (fun pr => create_circle pr.1 pr.2) := by
  have hne : (num_segments : ℝ) ≠ 0 := Nat.cast_ne_zero.mpr (by omega)
  have hcast1 : (((i + 1 : ℕ)) : ℝ) * (2 * Real.pi / (num_segments : ℝ)) =
      (i : ℝ) * (2 * Real.pi / (num_segments : ℝ)) + 2 * Real.pi / (num_segments : ℝ) := by
    push_cast; ring
  refine ⟨rfl, rfl, ?_, ?_, segmentCircles_eq_data center specs _⟩
  · by_cases h : i + 1 < num_segments
    · rw [Nat.mod_eq_of_lt h, hcast1, segmentPolygons_rotate]
    · have hieq : i + 1 = num_segments := by omega
      have hmod : (i + 1) % num_segments = 0 := by rw [hieq, Nat.mod_self]
      have hin : ((i : ℝ) + 1) = (num_segments : ℝ) := by exact_mod_cast hieq
      have hcast2 : (i : ℝ) * (2 * Real.pi / (num_segments : ℝ)) +
          2 * Real.pi / (num_segments : ℝ) = 0 + 2 * Real.pi := by
        calc (i : ℝ) * (2 * Real.pi / (num_segments : ℝ)) +
              2 * Real.pi / (num_segments : ℝ)
            = ((i : ℝ) + 1) * (2 * Real.pi / (num_segments : ℝ)) := by ring
          _ = (num_segments : ℝ) * (2 * Real.pi / (num_segments : ℝ)) := by rw [hin]
          _ = 0 + 2 * Real.pi := by field_simp
      rw [hmod, ← segmentPolygons_rotate center specs
        ((i : ℝ) * (2 * Real.pi / (num_segments : ℝ))) (2 * Real.pi / (num_segments : ℝ)),
        hcast2, segmentPolygons_two_pi]
      simp
  · by_cases h : i + 1 < num_segments
    · rw [Nat.mod_eq_of_lt h, hcast1, segmentCircleData_rotate]
    · have hieq : i + 1 = num_segments := by omega
      have hmod : (i + 1) % num_segments = 0 := by rw [hieq, Nat.mod_self]
      have hin : ((i : ℝ) + 1) = (num_segments : ℝ) := by exact_mod_cast hieq
      have hcast2 : (i : ℝ) * (2 * Real.pi / (num_segments : ℝ)) +
          2 * Real.pi / (num_segments : ℝ) = 0 + 2 * Real.pi := by
        calc (i : ℝ) * (2 * Real.pi / (num_segments : ℝ)) +
              2 * Real.pi / (num_segments : ℝ)
            = ((i : ℝ) + 1) * (2 * Real.pi / (num_segments : ℝ)) := by ring
          _ = (num_segments : ℝ) * (2 * Real.pi / (num_segments : ℝ)) := by rw [hin]
          _ = 0 + 2 * Real.pi := by field_simp
      rw [hmod, ← segmentCircleData_rotate center specs
        ((i : ℝ) * (2 * Real.pi / (num_segments : ℝ))) (2 * Real.pi / (num_segments : ℝ)),
        hcast2, segmentCircleData_two_pi]
      simp

/-- Witness for the amended C1: four segments, one polygon spec, slot 1. -/
theorem mandala_rotational_symmetry_witness :
    (1 : ℕ) ≤ 4 ∧ (1 : ℕ) < 4 ∧
    (dget (create_mandala_from_polygons ((0 : ℝ), (0 : ℝ)) 4
        (some [⟨"polygon", 3, 1, 1, 0, 0⟩]) 3) "polygons" =
      ((List.range 4).map (fun (j : ℕ) =>
        segmentPolygons ((0 : ℝ), (0 : ℝ)) [⟨"polygon", 3, 1, 1, 0, 0⟩]
          (j * (2 * Real.pi / ((4 : ℕ) : ℝ))))).flatten ∧
    dget (create_mandala_from_polygons ((0 : ℝ), (0 : ℝ)) 4
        (some [⟨"polygon", 3, 1, 1, 0, 0⟩]) 3) "circles" =
      ((List.range 4).map (fun (j : ℕ) =>
        segmentCircles ((0 : ℝ), (0 : ℝ)) [⟨"polygon", 3, 1, 1, 0, 0⟩]
          (j * (2 * Real.pi / ((4 : ℕ) : ℝ))))).flatten ∧
    segmentPolygons ((0 : ℝ), (0 : ℝ)) [⟨"polygon", 3, 1, 1, 0, 0⟩]
        ((((1 + 1) % 4 : ℕ) : ℝ) * (2 * Real.pi / ((4 : ℕ) : ℝ))) =
      (segmentPolygons ((0 : ℝ), (0 : ℝ)) [⟨"polygon", 3, 1, 1, 0, 0⟩]
        (((1 : ℕ) : ℝ) * (2 * Real.pi / ((4 : ℕ) : ℝ)))).map
        (List.map (rotatePoint ((0 : ℝ), (0 : ℝ)) (2 * Real.pi / ((4 : ℕ) : ℝ)))) ∧
    segmentCircleData ((0 : ℝ), (0 : ℝ)) [⟨"polygon", 3, 1, 1, 0, 0⟩]
        ((((1 + 1) % 4 : ℕ) : ℝ) * (2 * Real.pi / ((4 : ℕ) : ℝ))) =
      (segmentCircleData ((0 : ℝ), (0 : ℝ)) [⟨"polygon", 3, 1, 1, 0, 0⟩]
        (((1 : ℕ) : ℝ) * (2 * Real.pi / ((4 : ℕ) : ℝ)))).map
        (fun pr => (rotatePoint ((0 : ℝ), (0 : ℝ)) (2 * Real.pi / ((4 : ℕ) : ℝ)) pr.1,
          pr.2)) ∧
    segmentCircles ((0 : ℝ), (0 : ℝ)) [⟨"polygon", 3, 1, 1, 0, 0⟩]
        (((1 : ℕ) : ℝ) * (2 * Real.pi / ((4 : ℕ) : ℝ))) =
      (segmentCircleData ((0 : ℝ), (0 : ℝ)) [⟨"polygon", 3, 1, 1, 0, 0⟩]
        (((1 : ℕ) : ℝ) * (2 * Real.pi / ((4 : ℕ) : ℝ)))).map
        (fun pr => create_circle pr.1 pr.2)) :=
  ⟨by decide, by decide,
    mandala_rotational_symmetry ((0 : ℝ), (0 : ℝ)) [⟨"polygon", 3, 1, 1, 0, 0⟩] 4 3
      (by decide) 1 (by decide)⟩


/-- C1 counterexample: in a two-segment mandala with one circle spec,
rotating slot 0's generated circle points by `2*pi/2` about the global
center does not reproduce slot 1's generated circle points: the rotated
first sample point is `(-2, 0)` while slot 1's first sample point is
`(0, 0)` — a distance-2 discrepancy, far beyond floating-point tolerance,
because `create_circle` samples at fixed angles that do not rotate with the
segment. -/
theorem mandala_rotational_symmetry_fails_for_circles :
    (exampleMandalaCircles[0]?.bind (fun l => l[0]?)).map
        (rotatePoint ((0 : ℝ), (0 : ℝ)) (2 * Real.pi / ((2 : ℕ) : ℝ))) =
      some ((-2 : ℝ), (0 : ℝ)) ∧
    exampleMandalaCircles[1]?.bind (fun l => l[0]?) = some ((0 : ℝ), (0 : ℝ)) ∧
    ((-2 : ℝ), (0 : ℝ)) ≠ ((0 : ℝ), (0 : ℝ)) ∧
    exampleMandalaCircles[0]?.map
        (List.map (rotatePoint ((0 : ℝ), (0 : ℝ)) (2 * Real.pi / ((2 : ℕ) : ℝ)))) ≠
      exampleMandalaCircles[1]? := by
  have hd : exampleMandalaCircles =
      [create_circle (mandalaElementCenter ((0 : ℝ), (0 : ℝ))
          (((0 : ℕ) : ℝ) * (2 * Real.pi / ((2 : ℕ) : ℝ))) ⟨"circle", 3, 1, 1, 0, 0⟩) 1,
       create_circle (mandalaElementCenter ((0 : ℝ), (0 : ℝ))
          (((1 : ℕ) : ℝ) * (2 * Real.pi / ((2 : ℕ) : ℝ))) ⟨"circle", 3, 1, 1, 0, 0⟩) 1] := rfl
  have hstep : 2 * Real.pi / ((2 : ℕ) : ℝ) = Real.pi := by push_cast; ring
  have hc0 : mandalaElementCenter ((0 : ℝ), (0 : ℝ))
      (((0 : ℕ) : ℝ) * (2 * Real.pi / ((2 : ℕ) : ℝ))) ⟨"circle", 3, 1, 1, 0, 0⟩ =
      ((1 : ℝ), (0 : ℝ)) := by
    simp [mandalaElementCenter]
  have hc1 : mandalaElementCenter ((0 : ℝ), (0 : ℝ))
      (((1 : ℕ) : ℝ) * (2 * Real.pi / ((2 : ℕ) : ℝ))) ⟨"circle", 3, 1, 1, 0, 0⟩ =
      ((-1 : ℝ), (0 : ℝ)) := by
    simp only [mandalaElementCenter, Nat.cast_one, one_mul, hstep, add_zero]
    simp [Real.cos_pi, Real.sin_pi]
  have hget : ∀ (c : Point), (create_circle c 1)[0]? = some (c.1 + 1, c.2) := by
    intro c
    rw [create_circle, List.getElem?_map,
      List.getElem?_range (show 0 < circleNumPoints by norm_num [circleNumPoints])]
    simp
  have h0 : exampleMandalaCircles[0]?.bind (fun l => l[0]?) = some ((2 : ℝ), (0 : ℝ)) := by
    rw [hd, hc0]
    simp only [List.getElem?_cons_zero, Option.some_bind]
    rw [hget ((1 : ℝ), (0 : ℝ))]
    norm_num
  have h1 : exampleMandalaCircles[1]?.bind (fun l => l[0]?) = some ((0 : ℝ), (0 : ℝ)) := by
    rw [hd, hc1]
    simp only [List.getElem?_cons_succ, List.getElem?_cons_zero, Option.some_bind]
    rw [hget ((-1 : ℝ), (0 : ℝ))]
    norm_num
  have hrot : rotatePoint ((0 : ℝ), (0 : ℝ)) (2 * Real.pi / ((2 : ℕ) : ℝ))
      ((2 : ℝ), (0 : ℝ)) = ((-2 : ℝ), (0 : ℝ)) := by
    rw [hstep]
    simp only [rotatePoint, Real.cos_pi, Real.sin_pi, Prod.mk.injEq]
    norm_num
  refine ⟨?_, h1, by simp, ?_⟩
  · rw [h0, Option.map_some', hrot]
  · intro heq
    rw [hd, hc0, hc1] at heq
    simp only [List.getElem?_cons_zero, List.getElem?_cons_succ, Option.map_some',
      Option.some.injEq] at heq
    have h00 := congrArg (fun l => l[0]?) heq
    simp only [List.getElem?_map] at h00
    rw [hget ((1 : ℝ), (0 : ℝ)), hget ((-1 : ℝ), (0 : ℝ))] at h00
    simp only [Option.map_some'] at h00
    norm_num at h00
    simp only [rotatePoint, Real.cos_pi, Real.sin_pi, Prod.ext_iff] at h00
    norm_num at h00

/-- C6: an unresolvable solid type makes the constellation fail with the
lookup `ValueError` (the spec's `UnsupportedShapeType`) and produce no
shapes; a resolvable type yields exactly `num_solids` generated solids
placed on the arrangement circle. -/
theorem create_platonic_solid_constellation_spec
    (registry : String → Option ((ℝ × ℝ × ℝ) → ℝ → PSolid))
    (solid_type : String) (num_solids : ℕ)
    (arrangement_radius solid_radius solid_rotation_offset : ℝ) :
    (registry solid_type = none →
      create_platonic_solid_constellation registry solid_type num_solids
          arrangement_radius solid_radius solid_rotation_offset =
        Except.error (PyErr.valueError
          ("Unsupported or unknown solid type: " ++ solid_type))) ∧
    (∀ g, registry solid_type = some g →
      create_platonic_solid_constellation registry solid_type num_solids
          arrangement_radius solid_radius solid_rotation_offset =
        Except.ok
          [("3d_shapes",
            (List.range num_solids).map (fun (i : ℕ) =>
              g (arrangement_radius * Real.cos (i * (2 * Real.pi / num_solids)),
                 arrangement_radius * Real.sin (i * (2 * Real.pi / num_solids)),
                 0)
                solid_radius)),
           ("circles", []), ("lines", []), ("polygons", [])] ∧
      ((List.range num_solids).map (fun (i : ℕ) =>
        g (arrangement_radius * Real.cos (i * (2 * Real.pi / num_solids)),
           arrangement_radius * Real.sin (i * (2 * Real.pi / num_solids)),
           0)
          solid_radius)).length = num_solids) := by
  constructor
  · intro h
    simp [create_platonic_solid_constellation, h]
  · intro g hg
    constructor
    · simp [create_platonic_solid_constellation, hg]
    · simp

/-- Witness for C6: `sphere` is rejected, `tetrahedron` yields three solids. -/
theorem create_platonic_solid_constellation_spec_witness :
    create_platonic_solid_constellation shapesRegistry "sphere" 5 5 1
        (Real.pi / 7) =
      Except.error (PyErr.valueError "Unsupported or unknown solid type: sphere") ∧
    ((List.range 3).map (fun (i : ℕ) =>
      (fun (c : ℝ × ℝ × ℝ) (r : ℝ) => PSolid.mk "tetrahedron" c r)
        ((5 : ℝ) * Real.cos (i * (2 * Real.pi / ((3 : ℕ) : ℝ))),
         (5 : ℝ) * Real.sin (i * (2 * Real.pi / ((3 : ℕ) : ℝ))),
         0)
        1)).length = 3 := by
  constructor
  · exact (create_platonic_solid_constellation_spec shapesRegistry "sphere" 5 5 1
      (Real.pi / 7)).1 rfl
  · exact ((create_platonic_solid_constellation_spec shapesRegistry "tetrahedron" 3 5 1
      (Real.pi / 7)).2 (fun c r => ⟨"tetrahedron", c, r⟩) rfl).2

/-- C10: the constellation's output is independent of
`solid_rotation_offset`; two calls differing only there return identical
compositions. -/
theorem create_platonic_solid_constellation_ignores_offset
    (registry : String → Option ((ℝ × ℝ × ℝ) → ℝ → PSolid))
    (solid_type : String) (num_solids : ℕ)
    (arrangement_radius solid_radius offset1 offset2 : ℝ) :
    create_platonic_solid_constellation registry solid_type num_solids
        arrangement_radius solid_radius offset1 =
      create_platonic_solid_constellation registry solid_type num_solids
        arrangement_radius solid_radius offset2 := rfl

end SacredGeo
